import Mathlib

/-!
Shallow embedding of the `yamc` markdown converter (`src/main.rs`) and proofs
about its specified behaviour.

External effects (process spawning, HTTP calls to the Chrome debugging
endpoint, base64 decoding, the file system) are modelled by an explicit
environment record whose fields give the outcome of each external call; the
embedded functions thread this environment and record, in an outcome record,
the observable actions the Rust code performs (which binary was spawned,
whether the tab-close and process-kill cleanup calls were attempted, which
print payload was sent, which bytes were written).
-/

/-- Embeds the Rust enum `ConversionError` (src/main.rs lines 63-69).
The `IoError` variant wraps an `io::Error` in Rust; here it carries that
error's display string. -/
inductive ConversionError where
  | IoError (msg : String)
  | PdfConversionFailed (msg : String)
  | ChromeError (msg : String)
  | NetworkError (msg : String)
  deriving DecidableEq, Repr

/-- The Rust constructor name of a `ConversionError`, used to talk about the
"kind" of an error. -/
def ConversionError.kindName : ConversionError → String
  | .IoError _ => "IoError"
  | .PdfConversionFailed _ => "PdfConversionFailed"
  | .ChromeError _ => "ChromeError"
  | .NetworkError _ => "NetworkError"

/-- Embeds `impl Display for ConversionError` (src/main.rs lines 71-80). -/
def ConversionError.display : ConversionError → String
  | .IoError e => "I/O error: " ++ e
  | .PdfConversionFailed e => "PDF conversion failed: " ++ e
  | .ChromeError e => "Chrome error: " ++ e
  | .NetworkError e => "Network error: " ++ e

/-- A target object returned by `GET http://localhost:9222/json`.  The Rust
code reads `t["type"]` and `t["webSocketDebuggerUrl"].as_str()`; we model a
target by exactly those two observations. -/
structure Target where
  ty : String
  webSocketDebuggerUrl : Option String
  deriving DecidableEq, Repr

/-- The fixed JSON payload of the print request (src/main.rs lines 274-285).
The two paper dimensions and the margins are written in the source as the
decimal literals 8.27, 11.69 and 0.4; they are modelled exactly as rationals. -/
structure PrintOptions where
  landscape : Bool
  displayHeaderFooter : Bool
  printBackground : Bool
  preferCSSPageSize : Bool
  paperWidth : Rat
  paperHeight : Rat
  marginTop : Rat
  marginBottom : Rat
  marginLeft : Rat
  marginRight : Rat
  deriving DecidableEq, Repr

/-- The literal payload sent by the print step of
`convert_html_to_pdf_with_chrome`. -/
def chromePrintPayload : PrintOptions :=
  { landscape := false
    displayHeaderFooter := false
    printBackground := true
    preferCSSPageSize := true
    paperWidth := 827 / 100
    paperHeight := 1169 / 100
    marginTop := 4 / 10
    marginBottom := 4 / 10
    marginLeft := 4 / 10
    marginRight := 4 / 10 }

/-- The command-line flags every spawn attempt passes to the browser binary
(src/main.rs lines 189-197, repeated verbatim for each candidate). -/
def chromeArgs : List String :=
  ["--headless", "--disable-gpu", "--no-sandbox", "--disable-dev-shm-usage",
   "--remote-debugging-port=9222", "--disable-web-security",
   "--allow-running-insecure-content"]

/-- The ordered candidate binary names tried by the spawn chain
`Command::new("chrome") ... .or_else(chromium) ... .or_else(google-chrome)`
(src/main.rs lines 188-220). -/
def chromeCandidates : List String := ["chrome", "chromium", "google-chrome"]

/-- Environment for one run of `convert_html_to_pdf_with_chrome`: the outcome
of every external interaction, in program order.  `Except String α` models a
call that can fail with an error message (transport errors and body-decoding
errors of `reqwest` are merged, as both surface as `reqwest::Error`). -/
structure ChromeEnv where
  /-- Whether spawning the given binary with the given args succeeds. -/
  spawnOk : String → List String → Bool
  /-- `GET /json` followed by `.json::<Vec<Value>>()`. -/
  targetsResult : Except String (List Target)
  /-- `POST /json/new` followed by `.json()`; `Ok` carries `tab_info["id"].as_str()`. -/
  newTabResult : Except String (Option String)
  /-- `POST /json/navigate/{tab_id}`; `Ok` carries `status().is_success()`. -/
  navigateResult : Except String Bool
  /-- `POST /json/print/{tab_id}`; `Ok` carries `status().is_success()`. -/
  printSendResult : Except String Bool
  /-- `print_response.json()`; `Ok` carries `print_result["data"].as_str()`. -/
  printJsonResult : Except String (Option String)
  /-- `base64::decode` on the data string; bytes are modelled as naturals. -/
  decodeBase64 : String → Except String (List Nat)
  /-- `fs::write(pdf_file, pdf_bytes)`. -/
  writeResult : Except String Unit

/-- The observable outcome of one run of `convert_html_to_pdf_with_chrome`. -/
structure ChromeOutcome where
  result : Except ConversionError Unit
  /-- The candidate binary whose spawn succeeded, if any (the process handle). -/
  spawned : Option String
  /-- Whether `POST /json/close/{tab_id}` was attempted (src/main.rs line 304). -/
  closeTabAttempted : Bool
  /-- Whether `chrome_process.kill()` was attempted (src/main.rs line 309). -/
  killAttempted : Bool
  /-- The payload of the print request, when that request was issued. -/
  printPayload : Option PrintOptions
  /-- The bytes written to the destination PDF file, when the write succeeded. -/
  writtenPdf : Option (List Nat)
  deriving Repr

/-- The spawn chain: try each candidate in order, first success wins. -/
def trySpawn (spawnOk : String → List String → Bool) : List String → Option String
  | [] => none
  | c :: rest => if spawnOk c chromeArgs then some c else trySpawn spawnOk rest

/-- Embeds src/main.rs lines 235-240: select the first target whose `type` is
`"page"` (else `ChromeError "No page target found"`), then require its
`webSocketDebuggerUrl` string (else `ChromeError "No WebSocket URL found"`). -/
def find_page_target (targets : List Target) : Except ConversionError (Target × String) :=
  match targets.find? (fun t => t.ty == "page") with
  | none => .error (.ChromeError "No page target found")
  | some t =>
    match t.webSocketDebuggerUrl with
    | none => .error (.ChromeError "No WebSocket URL found")
    | some ws => .ok (t, ws)

/-- An early `return Err(e)` inside `convert_html_to_pdf_with_chrome` after the
process was spawned: the `?`/`return` paths of the Rust function reach neither
the tab-close nor the kill call. -/
def chromeEarlyErr (proc : String) (e : ConversionError) (payload : Option PrintOptions) :
    ChromeOutcome :=
  { result := .error e
    spawned := some proc
    closeTabAttempted := false
    killAttempted := false
    printPayload := payload
    writtenPdf := none }

/-- Embeds `convert_html_to_pdf_with_chrome` (src/main.rs lines 186-312) as a
function of the external-call environment.  The two fixed sleeps have no
observable effect in this model and are omitted.  The `file://` URL built from
the HTML path and the tab id interpolated into the request URLs do not affect
any branch, so they are not threaded. -/
def convert_html_to_pdf_with_chrome (env : ChromeEnv) : ChromeOutcome :=
  match trySpawn env.spawnOk chromeCandidates with
  | none =>
    { result := .error (.ChromeError
        "Could not start Chrome/Chromium. Please ensure Chrome or Chromium is installed.")
      spawned := none
      closeTabAttempted := false
      killAttempted := false
      printPayload := none
      writtenPdf := none }
  | some proc =>
    match env.targetsResult with
    | .error e => chromeEarlyErr proc (.NetworkError e) none
    | .ok targets =>
      match find_page_target targets with
      | .error e => chromeEarlyErr proc e none
      | .ok _ =>
        match env.newTabResult with
        | .error e => chromeEarlyErr proc (.NetworkError e) none
        | .ok idOpt =>
          match idOpt with
          | none => chromeEarlyErr proc (.ChromeError "Failed to get tab ID") none
          | some _tabId =>
            match env.navigateResult with
            | .error e => chromeEarlyErr proc (.NetworkError e) none
            | .ok navOk =>
              if !navOk then
                chromeEarlyErr proc (.ChromeError "Failed to navigate to HTML file") none
              else
                match env.printSendResult with
                | .error e => chromeEarlyErr proc (.NetworkError e) (some chromePrintPayload)
                | .ok printOk =>
                  if !printOk then
                    chromeEarlyErr proc (.ChromeError "Failed to generate PDF")
                      (some chromePrintPayload)
                  else
                    match env.printJsonResult with
                    | .error e =>
                      chromeEarlyErr proc (.NetworkError e) (some chromePrintPayload)
                    | .ok dataOpt =>
                      match dataOpt with
                      | none =>
                        chromeEarlyErr proc (.ChromeError "No PDF data received")
                          (some chromePrintPayload)
                      | some pdfData =>
                        match env.decodeBase64 pdfData with
                        | .error e =>
                          chromeEarlyErr proc
                            (.PdfConversionFailed ("Failed to decode PDF data: " ++ e))
                            (some chromePrintPayload)
                        | .ok pdfBytes =>
                          match env.writeResult with
                          | .error e =>
                            chromeEarlyErr proc (.IoError e) (some chromePrintPayload)
                          | .ok _ =>
                            { result := .ok ()
                              spawned := some proc
                              closeTabAttempted := true
                              killAttempted := true
                              printPayload := some chromePrintPayload
                              writtenPdf := some pdfBytes }

/-! ### Layout engine (spec §4.2)

The repository sources under `src/` contain no layout code: the Rust file
implements only the browser-based PDF pipeline.  The tree model and the layout
engine below are therefore modelled from the specification text. -/

/-- Modelled from the spec: the `TreeNode` variant of §3.  The kinds the layout
algorithm treats uniformly ("all other kinds": block quotes, tables, thematic
breaks, HTML nodes, footnote definitions, task items, description lists, ...)
are collapsed into a single `other` constructor carrying the kind's name. -/
inductive TreeNode where
  | heading (level : Nat) (children : List TreeNode)
  | paragraph (children : List TreeNode)
  | list (children : List TreeNode)
  | item (children : List TreeNode)
  | text (s : String)
  | code (s : String)
  | emphasis (children : List TreeNode)
  | strong (children : List TreeNode)
  | softBreak
  | lineBreak
  | other (kind : String) (children : List TreeNode)
  deriving Repr

/-- Modelled from the spec: a positioned text-rendering instruction,
`DrawCommand = \x7btext, font size, x, y\x7d`. -/
structure DrawCommand where
  text : String
  size : Rat
  x : Rat
  y : Rat
  deriving DecidableEq, Repr

mutual
/-- Modelled from the spec: the text-collection rule of §4.2.  `Text` and
`Code` leaves contribute their payload, soft/line breaks a single space, and
every other kind contributes its descendants' text verbatim. -/
def collectText : TreeNode → String
  | .text s => s
  | .code s => s
  | .softBreak => " "
  | .lineBreak => " "
  | .heading _ cs => collectTextList cs
  | .paragraph cs => collectTextList cs
  | .list cs => collectTextList cs
  | .item cs => collectTextList cs
  | .emphasis cs => collectTextList cs
  | .strong cs => collectTextList cs
  | .other _ cs => collectTextList cs

/-- Text collection over an ordered child list. -/
def collectTextList : List TreeNode → String
  | [] => ""
  | c :: cs => collectText c ++ collectTextList cs
end

/-- Modelled from the spec: the heading font-size mapping
`\x7b1:24, 2:20, 3:16, default:14\x7d` (points). -/
def headingFontSize (level : Nat) : Rat :=
  if level = 1 then 24 else if level = 2 then 20 else if level = 3 then 16 else 14

mutual
/-- Modelled from the spec: one step of the depth-first layout walk of §4.2.
The cursor `y` is the current vertical position in mm (the page renders
top-down, so advancing means decreasing `y`).  Returns the cursor after the
node together with the emitted commands, in draw order. -/
def layoutNode (y : Rat) : TreeNode → Rat × List DrawCommand
  | .heading level cs =>
    let size := headingFontSize level
    let y1 := y - size * (7 / 10)
    (y1 - 4, [{ text := collectTextList cs, size := size, x := 20, y := y1 }])
  | .paragraph cs =>
    let y1 := y - 10
    (y1 - 4, [{ text := collectTextList cs, size := 12, x := 20, y := y1 }])
  | .list cs => layoutListChildren y cs
  | .item cs => layoutNodes y cs
  | .text _ => (y, [])
  | .code _ => (y, [])
  | .softBreak => (y, [])
  | .lineBreak => (y, [])
  | .emphasis cs => layoutNodes y cs
  | .strong cs => layoutNodes y cs
  | .other _ cs => layoutNodes y cs

/-- Depth-first layout of an ordered child list, threading the cursor. -/
def layoutNodes (y : Rat) : List TreeNode → Rat × List DrawCommand
  | [] => (y, [])
  | c :: cs =>
    let r1 := layoutNode y c
    let r2 := layoutNodes r1.1 cs
    (r2.1, r1.2 ++ r2.2)

/-- Modelled from the spec: the `List` rule of §4.2 — each direct child that
is an `Item` advances 8mm, emits one 12pt command with a bullet prefix at
x = 25mm, then advances 2mm; any other direct child is recursed like any
container. -/
def layoutListChildren (y : Rat) : List TreeNode → Rat × List DrawCommand
  | [] => (y, [])
  | .item ics :: cs =>
    let y1 := y - 8
    let r2 := layoutListChildren (y1 - 2) cs
    (r2.1, { text := "• " ++ collectTextList ics, size := 12, x := 25, y := y1 } :: r2.2)
  | .text s :: cs =>
    let r1 := layoutNode y (.text s)
    let r2 := layoutListChildren r1.1 cs
    (r2.1, r1.2 ++ r2.2)
  | .code s :: cs =>
    let r1 := layoutNode y (.code s)
    let r2 := layoutListChildren r1.1 cs
    (r2.1, r1.2 ++ r2.2)
  | .softBreak :: cs =>
    let r1 := layoutNode y .softBreak
    let r2 := layoutListChildren r1.1 cs
    (r2.1, r1.2 ++ r2.2)
  | .lineBreak :: cs =>
    let r1 := layoutNode y .lineBreak
    let r2 := layoutListChildren r1.1 cs
    (r2.1, r1.2 ++ r2.2)
  | .heading level hcs :: cs =>
    let r1 := layoutNode y (.heading level hcs)
    let r2 := layoutListChildren r1.1 cs
    (r2.1, r1.2 ++ r2.2)
  | .paragraph pcs :: cs =>
    let r1 := layoutNode y (.paragraph pcs)
    let r2 := layoutListChildren r1.1 cs
    (r2.1, r1.2 ++ r2.2)
  | .list lcs :: cs =>
    let r1 := layoutNode y (.list lcs)
    let r2 := layoutListChildren r1.1 cs
    (r2.1, r1.2 ++ r2.2)
  | .emphasis ecs :: cs =>
    let r1 := layoutNode y (.emphasis ecs)
    let r2 := layoutListChildren r1.1 cs
    (r2.1, r1.2 ++ r2.2)
  | .strong scs :: cs =>
    let r1 := layoutNode y (.strong scs)
    let r2 := layoutListChildren r1.1 cs
    (r2.1, r1.2 ++ r2.2)
  | .other k ocs :: cs =>
    let r1 := layoutNode y (.other k ocs)
    let r2 := layoutListChildren r1.1 cs
    (r2.1, r1.2 ++ r2.2)
end

/-- Modelled from the spec: the starting cursor, "near the page top (≈10mm
below the top margin)" on a 210×297mm A4 page. -/
def layoutStartY : Rat := 287

/-- Modelled from the spec: `layout(root) -> ordered sequence of DrawCommand`. -/
def layout (root : TreeNode) : List DrawCommand :=
  (layoutNode layoutStartY root).2

/-! ### HTML assembler (`create_html_document`, src/main.rs lines 129-178)

The Rust template is one `format!` literal with six placeholders, in order:
the stylesheet URL, four occurrences of the CSS class, and the body fragment.
It is embedded as the concatenation of the literal parts around those
placeholders; the parts are further split exactly at the substrings the
properties below talk about. -/

def htmlHead0 : String :=
  "<!DOCTYPE html>\n<html lang=\"en\">\n<head>\n    <meta charset=\"UTF-8\">\n    <meta name=\"viewport\" content=\"width=device-width, initial-scale=1.0\">\n    <title>Converted Markdown</title>\n    "

def htmlLinkPre : String := "<link rel=\"stylesheet\" href=\""

def htmlLinkClose : String := "\">"

def htmlStyle1 : String :=
  "\n    <style>\n        body \x7b\n            font-family: -apple-system, BlinkMacSystemFont, \x27Segoe UI\x27, \x27Noto Sans\x27, Helvetica, Arial, sans-serif;\n            line-height: 1.6;\n            max-width: 800px;\n            margin: 0 auto;\n            padding: 20px;\n        \x7d\n        ."

def htmlStyle2a : String :=
  " \x7b\n            box-sizing: border-box;\n            min-width: 200px;\n            max-width: 980px;\n            margin: 0 auto;\n            padding: 45px;\n        \x7d\n        "

def htmlMediaResponsive : String := "@media (max-width: 767px)"

def htmlStyle2b : String := " \x7b\n            ."

def htmlStyle3a : String :=
  " \x7b\n                padding: 15px;\n            \x7d\n        \x7d\n        "

def htmlMediaPrint : String := "@media print"

def htmlStyle3b : String :=
  " \x7b\n            body \x7b\n                max-width: none;\n                margin: 0;\n                padding: 0;\n            \x7d\n            ."

def htmlStyleEnd : String :=
  " \x7b\n                max-width: none;\n                margin: 0;\n                padding: 20px;\n            \x7d\n        \x7d\n    </style>\n</head>\n"

def htmlBodyPre : String := "<body class=\""

def htmlBodyMid : String := "\">\n"

def htmlBodyClose : String := "\n</body>"

def htmlTail : String := "\n</html>"

/-- Embeds `create_html_document` (src/main.rs lines 129-178): the `format!`
template with `html_content`, `css_url` and `css_class` substituted. -/
def create_html_document (html_content css_url css_class : String) : String :=
  htmlHead0 ++ htmlLinkPre ++ css_url ++ htmlLinkClose ++ htmlStyle1 ++ css_class ++ htmlStyle2a ++
    htmlMediaResponsive ++ htmlStyle2b ++ css_class ++ htmlStyle3a ++ htmlMediaPrint ++
    htmlStyle3b ++ css_class ++ htmlStyleEnd ++ htmlBodyPre ++ css_class ++ htmlBodyMid ++
    html_content ++ htmlBodyClose ++ htmlTail

/-- `needle` occurs as a contiguous substring of `hay`. -/
def strContains (hay needle : String) : Prop :=
  ∃ s t, hay.data = s ++ needle.data ++ t

/-! ### Configuration (`Config::new`, src/main.rs lines 29-61)

`Config::new` consults the file system (`exists`, `is_file`); those two
observations are passed in as booleans.  Paths are modelled as plain strings;
`PathBuf::set_extension` is modelled for paths whose final component is an
ordinary file name (guaranteed here in practice, since `Config::new` has
already checked that the path names an existing regular file, which rules out
paths ending in a separator or in a `.`/`..` component). -/

/-- Embeds the Rust enum `OutputFormat` (src/main.rs lines 14-18). -/
inductive OutputFormat where
  | Html
  | Pdf
  deriving DecidableEq, Repr

/-- Embeds the Rust struct `Config` (src/main.rs lines 20-27). -/
structure Config where
  input_file : String
  output_file : String
  output_format : OutputFormat
  css_url : String
  css_class : String
  deriving DecidableEq, Repr

/-- The final component of a path: the characters after the last `/`. -/
def fileNameOf (l : List Char) : List Char :=
  (l.reverse.takeWhile (fun c => c != '/')).reverse

/-- Remove the last `.` of a file name and everything after it
(`Path::file_stem` when an extension is present). -/
def dropLastDotSegment (fname : List Char) : List Char :=
  ((fname.reverse.dropWhile (fun c => c != '.')).drop 1).reverse

/-- Model of Rust `PathBuf::set_extension(ext)` for paths whose final
component is an ordinary file name: a file name has an extension exactly when
a `.` occurs past its first character (so `.bashrc` has none); the extension
is replaced if present, else `.ext` is appended.  A path with an empty final
component is returned unchanged (`set_extension` is a no-op without a file
name). -/
def set_extension (p ext : String) : String :=
  if (fileNameOf p.data).isEmpty then p
  else
    ⟨p.data.take (p.data.length - (fileNameOf p.data).length) ++
      (if ((fileNameOf p.data).drop 1).any (fun c => c == '.') then
        dropLastDotSegment (fileNameOf p.data) ++ ('.' :: ext.data)
      else
        fileNameOf p.data ++ ('.' :: ext.data))⟩

/-- The hard-coded stylesheet URL (src/main.rs line 57 and line 318). -/
def defaultCssUrl : String :=
  "https://cdnjs.cloudflare.com/ajax/libs/github-markdown-css/4.0.0/github-markdown.min.css"

/-- Embeds `Config::new` (src/main.rs lines 30-60).  `inputExists` and
`inputIsFile` are the two file-system observations the Rust code makes. -/
def Config.new (inputExists inputIsFile : Bool) (input_file : String)
    (output_file : Option String) (format : OutputFormat) : Except String Config :=
  if !inputExists then
    .error ("Input file \x27" ++ input_file ++ "\x27 does not exist")
  else if !inputIsFile then
    .error ("\x27" ++ input_file ++ "\x27 is not a file")
  else
    let output_path :=
      match output_file with
      | some output => output
      | none =>
        match format with
        | .Html => set_extension input_file "html"
        | .Pdf => set_extension input_file "pdf"
    .ok { input_file := input_file
          output_file := output_path
          output_format := format
          css_url := defaultCssUrl
          css_class := "markdown-body" }

/-! ### Markdown conversion and the PDF wrapper -/

/-- Embeds the fields of `ComrakExtensionOptions` that `create_comrak_options`
sets explicitly (src/main.rs lines 96-113); the remaining fields come from
`..Default::default()` and are not modelled. -/
structure ComrakExtensionOptions where
  strikethrough : Bool
  tagfilter : Bool
  table : Bool
  autolink : Bool
  tasklist : Bool
  superscript : Bool
  header_ids : Option String
  footnotes : Bool
  description_lists : Bool
  front_matter_delimiter : Option String
  deriving DecidableEq, Repr

/-- Embeds the `ComrakOptions` value built by `create_comrak_options`. -/
structure ComrakOptions where
  extension : ComrakExtensionOptions
  deriving DecidableEq, Repr

/-- Embeds `create_comrak_options` (src/main.rs lines 96-113). -/
def create_comrak_options : ComrakOptions :=
  { extension :=
    { strikethrough := true
      tagfilter := true
      table := true
      autolink := true
      tasklist := true
      superscript := true
      header_ids := some ""
      footnotes := true
      description_lists := true
      front_matter_delimiter := some "---" } }

/-- Embeds `convert_markdown_to_html` (src/main.rs lines 124-127).  The
external `comrak::markdown_to_html` function is a parameter: a total function
from the markdown text and the options to the HTML fragment. -/
def convert_markdown_to_html (markdown_to_html_ext : String → ComrakOptions → String)
    (markdown : String) : Except ConversionError String :=
  .ok (markdown_to_html_ext markdown create_comrak_options)

/-- Environment for one run of `convert_markdown_to_pdf`: the outcomes of its
own external calls plus the environment of the inner Chrome conversion. -/
structure PdfEnv where
  /-- The external `comrak::markdown_to_html` function. -/
  markdown_to_html_ext : String → ComrakOptions → String
  /-- `NamedTempFile::new()`. -/
  tempFileResult : Except String Unit
  /-- `write_html_file(&temp_html, &full_html)` (File::create + write_all). -/
  writeHtmlResult : Except String Unit
  /-- `tokio::runtime::Runtime::new()`. -/
  runtimeResult : Except String Unit
  /-- Environment of the inner `convert_html_to_pdf_with_chrome` run. -/
  chromeEnv : ChromeEnv
  /-- Whether `fs::remove_file(&temp_html)` succeeds (its result is ignored). -/
  removeFileOk : Bool

/-- The observable outcome of one run of `convert_markdown_to_pdf`. -/
structure PdfOutcome where
  result : Except ConversionError Unit
  /-- Whether the temporary HTML file was created. -/
  tempCreated : Bool
  /-- Whether deletion of the temporary file was attempted (the explicit
  `fs::remove_file` on the main path; the `TempPath` drop glue on the early
  returns — `into_temp_path()` yields a guard that deletes the file when it
  goes out of scope, errors ignored). -/
  deleteAttempted : Bool
  /-- The full HTML document written to the temporary file, once written. -/
  htmlWritten : Option String
  deriving Repr

/-- Embeds `convert_markdown_to_pdf` (src/main.rs lines 314-337). -/
def convert_markdown_to_pdf (env : PdfEnv) (markdown : String) : PdfOutcome :=
  match convert_markdown_to_html env.markdown_to_html_ext markdown with
  | .error e =>
    { result := .error e, tempCreated := false, deleteAttempted := false, htmlWritten := none }
  | .ok html_content =>
    let full_html := create_html_document html_content defaultCssUrl "markdown-body"
    match env.tempFileResult with
    | .error e =>
      { result := .error (.IoError e), tempCreated := false, deleteAttempted := false,
        htmlWritten := none }
    | .ok _ =>
      match env.writeHtmlResult with
      | .error e =>
        { result := .error (.IoError e), tempCreated := true, deleteAttempted := true,
          htmlWritten := none }
      | .ok _ =>
        match env.runtimeResult with
        | .error e =>
          { result := .error (.ChromeError ("Failed to create async runtime: " ++ e)),
            tempCreated := true, deleteAttempted := true, htmlWritten := some full_html }
        | .ok _ =>
          let r := convert_html_to_pdf_with_chrome env.chromeEnv
          { result := r.result, tempCreated := true, deleteAttempted := true,
            htmlWritten := some full_html }

/-! ### Concrete environments used as witnesses and counterexamples -/

/-- Environment in which every spawn attempt fails; later calls are never
reached. -/
def envAllFail : ChromeEnv :=
  { spawnOk := fun _ _ => false
    targetsResult := .error "connection refused"
    newTabResult := .error "connection refused"
    navigateResult := .error "connection refused"
    printSendResult := .error "connection refused"
    printJsonResult := .error "connection refused"
    decodeBase64 := fun _ => .error "invalid base64"
    writeResult := .ok () }

/-- Environment in which the first spawn succeeds but the target-list request
fails at the transport level. -/
def envTargetsFail : ChromeEnv :=
  { spawnOk := fun _ _ => true
    targetsResult := .error "connection refused"
    newTabResult := .error "connection refused"
    navigateResult := .error "connection refused"
    printSendResult := .error "connection refused"
    printJsonResult := .error "connection refused"
    decodeBase64 := fun _ => .error "invalid base64"
    writeResult := .ok () }

/-- Environment in which every step succeeds. -/
def envChromeOk : ChromeEnv :=
  { spawnOk := fun _ _ => true
    targetsResult := .ok [{ ty := "page", webSocketDebuggerUrl := some "ws://localhost:9222/p1" }]
    newTabResult := .ok (some "tab-1")
    navigateResult := .ok true
    printSendResult := .ok true
    printJsonResult := .ok (some "JVBERi0=")
    decodeBase64 := fun s => if s = "JVBERi0=" then .ok [37, 80, 68, 70, 45] else .error "invalid base64"
    writeResult := .ok () }

/-! ### Theorems -/

/-- C10: `convert_markdown_to_html` is total over its input string: for every
external converter function and every markdown input it returns `Ok` with the
converter's output (under the options of `create_comrak_options`), never a
`ConversionError` of any kind. -/
theorem convert_markdown_to_html_total
    (markdown_to_html_ext : String → ComrakOptions → String) (markdown : String) :
    convert_markdown_to_html markdown_to_html_ext markdown =
      .ok (markdown_to_html_ext markdown create_comrak_options) :=
  rfl

/-- C8: `create_html_document` — a total function of its three string inputs,
hence deterministic with no failure outcome — emits an output containing a
stylesheet link referencing `css_url`, wraps the fragment verbatim inside a
body element carrying `css_class`, and includes a responsive and a print
media block. -/
theorem create_html_document_contract (fragment css_url css_class : String) :
    strContains (create_html_document fragment css_url css_class)
      (htmlLinkPre ++ css_url ++ htmlLinkClose) ∧
    strContains (create_html_document fragment css_url css_class)
      (htmlBodyPre ++ css_class ++ htmlBodyMid ++ fragment ++ htmlBodyClose) ∧
    strContains (create_html_document fragment css_url css_class) htmlMediaResponsive ∧
    strContains (create_html_document fragment css_url css_class) htmlMediaPrint := by
  simp only [strContains]
  refine
    ⟨⟨htmlHead0.data,
      (htmlStyle1 ++ css_class ++ htmlStyle2a ++ htmlMediaResponsive ++ htmlStyle2b ++
        css_class ++ htmlStyle3a ++ htmlMediaPrint ++ htmlStyle3b ++ css_class ++
        htmlStyleEnd ++ htmlBodyPre ++ css_class ++ htmlBodyMid ++ fragment ++
        htmlBodyClose ++ htmlTail).data, ?_⟩,
     ⟨(htmlHead0 ++ htmlLinkPre ++ css_url ++ htmlLinkClose ++ htmlStyle1 ++ css_class ++
        htmlStyle2a ++ htmlMediaResponsive ++ htmlStyle2b ++ css_class ++ htmlStyle3a ++
        htmlMediaPrint ++ htmlStyle3b ++ css_class ++ htmlStyleEnd).data,
      htmlTail.data, ?_⟩,
     ⟨(htmlHead0 ++ htmlLinkPre ++ css_url ++ htmlLinkClose ++ htmlStyle1 ++ css_class ++
        htmlStyle2a).data,
      (htmlStyle2b ++ css_class ++ htmlStyle3a ++ htmlMediaPrint ++ htmlStyle3b ++
        css_class ++ htmlStyleEnd ++ htmlBodyPre ++ css_class ++ htmlBodyMid ++ fragment ++
        htmlBodyClose ++ htmlTail).data, ?_⟩,
     ⟨(htmlHead0 ++ htmlLinkPre ++ css_url ++ htmlLinkClose ++ htmlStyle1 ++ css_class ++
        htmlStyle2a ++ htmlMediaResponsive ++ htmlStyle2b ++ css_class ++ htmlStyle3a).data,
      (htmlStyle3b ++ css_class ++ htmlStyleEnd ++ htmlBodyPre ++ css_class ++ htmlBodyMid ++
        fragment ++ htmlBodyClose ++ htmlTail).data, ?_⟩⟩ <;>
  simp [create_html_document, List.append_assoc]

/-- C5: `find_page_target` selects the first target whose `type` is `"page"`
(every earlier target is not of page type), returns its websocket URL when
present, fails with `ChromeError "No page target found"` when no page-type
target exists, and fails with `ChromeError "No WebSocket URL found"` when the
selected target's websocket field is absent.  (`ChromeError` is the code's
realization of the spec's `RemoteProtocolFailure` kind.) -/
theorem find_page_target_contract (targets : List Target) :
    (∀ t ws, find_page_target targets = .ok (t, ws) →
      t.ty = "page" ∧ t.webSocketDebuggerUrl = some ws ∧
      ∃ pre post, targets = pre ++ t :: post ∧ ∀ u ∈ pre, u.ty ≠ "page") ∧
    ((∀ t ∈ targets, t.ty ≠ "page") →
      find_page_target targets = .error (.ChromeError "No page target found")) ∧
    (∀ t, targets.find? (fun u => u.ty == "page") = some t →
      t.webSocketDebuggerUrl = none →
      find_page_target targets = .error (.ChromeError "No WebSocket URL found")) := by
  refine ⟨?_, ?_, ?_⟩
  · intro t ws h
    cases hf : targets.find? (fun u => u.ty == "page") with
    | none => simp [find_page_target, hf] at h
    | some t2 =>
      cases hws : t2.webSocketDebuggerUrl with
      | none => simp [find_page_target, hf, hws] at h
      | some w2 =>
        simp [find_page_target, hf, hws] at h
        obtain ⟨rfl, rfl⟩ := h
        obtain ⟨hp, pre, post, hsplit, hpre⟩ := List.find?_eq_some.mp hf
        refine ⟨by simpa using hp, hws, pre, post, hsplit, ?_⟩
        intro u hu
        simpa using hpre u hu
  · intro h
    have hf : targets.find? (fun u => u.ty == "page") = none := by
      rw [List.find?_eq_none]
      intro t ht
      simpa using h t ht
    simp [find_page_target, hf]
  · intro t hf hws
    simp [find_page_target, hf, hws]

/-- Witness for `find_page_target_contract` at a concrete target list. -/
theorem find_page_target_contract_witness :
    (Target.mk "page" (some "ws://a")).ty = "page" ∧
    (Target.mk "page" (some "ws://a")).webSocketDebuggerUrl = some "ws://a" ∧
    ∃ pre post,
      [Target.mk "background_page" none, Target.mk "page" (some "ws://a")] =
        pre ++ Target.mk "page" (some "ws://a") :: post ∧
      ∀ u ∈ pre, u.ty ≠ "page" :=
  (find_page_target_contract
    [Target.mk "background_page" none, Target.mk "page" (some "ws://a")]).1
    (Target.mk "page" (some "ws://a")) "ws://a" rfl

/-- `trySpawn` returns `none` when every candidate fails to spawn. -/
lemma trySpawn_eq_none_of_all_fail (spawnOk : String → List String → Bool) :
    ∀ l : List String, (∀ c ∈ l, spawnOk c chromeArgs = false) →
      trySpawn spawnOk l = none := by
  intro l
  induction l with
  | nil => intro _; rfl
  | cons a as ih =>
    intro h
    have ha := h a (by simp)
    simp only [trySpawn, ha, if_false, Bool.false_eq_true]
    exact ih fun x hx => h x (by simp [hx])

/-- `trySpawn` returns the first candidate whose spawn succeeds. -/
lemma trySpawn_first_success (spawnOk : String → List String → Bool) :
    ∀ l c, trySpawn spawnOk l = some c →
      spawnOk c chromeArgs = true ∧
      ∃ pre post, l = pre ++ c :: post ∧ ∀ c2 ∈ pre, spawnOk c2 chromeArgs = false := by
  intro l
  induction l with
  | nil => intro c h; cases h
  | cons a as ih =>
    intro c h
    by_cases ha : spawnOk a chromeArgs = true
    · have : a = c := by simpa [trySpawn, ha] using h
      subst this
      exact ⟨ha, [], as, rfl, by simp⟩
    · have ha2 : spawnOk a chromeArgs = false := by simpa using ha
      have h2 : trySpawn spawnOk as = some c := by simpa [trySpawn, ha2] using h
      obtain ⟨hc, pre, post, hsplit, hpre⟩ := ih c h2
      refine ⟨hc, a :: pre, post, by simp [hsplit], ?_⟩
      intro x hx
      rcases List.mem_cons.mp hx with rfl | hx2
      · exact ha2
      · exact hpre x hx2

/-- C3: the browser orchestrator tries exactly the three candidate binaries
`chrome`, `chromium`, `google-chrome` in that order, stopping at the first
successful spawn; if all fail, the conversion returns the `ChromeError`
remediation message (the code's realization of the spec's `ProcessUnavailable`
kind) and no browser process remains allocated. -/
theorem chrome_spawn_contract (env : ChromeEnv) :
    chromeCandidates = ["chrome", "chromium", "google-chrome"] ∧
    (∀ c, trySpawn env.spawnOk chromeCandidates = some c →
      env.spawnOk c chromeArgs = true ∧
      ∃ pre post, chromeCandidates = pre ++ c :: post ∧
        ∀ c2 ∈ pre, env.spawnOk c2 chromeArgs = false) ∧
    ((∀ c ∈ chromeCandidates, env.spawnOk c chromeArgs = false) →
      (convert_html_to_pdf_with_chrome env).result = .error (.ChromeError
        "Could not start Chrome/Chromium. Please ensure Chrome or Chromium is installed.") ∧
      (convert_html_to_pdf_with_chrome env).spawned = none) := by
  refine ⟨rfl, fun c h => trySpawn_first_success env.spawnOk chromeCandidates c h, ?_⟩
  intro h
  have hnone := trySpawn_eq_none_of_all_fail env.spawnOk chromeCandidates h
  constructor <;> simp [convert_html_to_pdf_with_chrome, hnone]

/-- Witness for `chrome_spawn_contract`: in `envAllFail` every spawn fails and
the run ends with the remediation error and no spawned process. -/
theorem chrome_spawn_contract_witness :
    (convert_html_to_pdf_with_chrome envAllFail).result = .error (.ChromeError
      "Could not start Chrome/Chromium. Please ensure Chrome or Chromium is installed.") ∧
    (convert_html_to_pdf_with_chrome envAllFail).spawned = none :=
  (chrome_spawn_contract envAllFail).2.2 (fun _ _ => rfl)

/-- C1 (observed code behaviour): when an intermediate step fails — here the
target-list request in `envTargetsFail` — `convert_html_to_pdf_with_chrome`
returns the error with neither the tab-close request nor the process
termination attempted; both cleanups run only on the success path
(`envChromeOk`). -/
theorem chrome_cleanup_skipped_on_failure :
    (convert_html_to_pdf_with_chrome envTargetsFail).result =
      .error (.NetworkError "connection refused") ∧
    (convert_html_to_pdf_with_chrome envTargetsFail).spawned = some "chrome" ∧
    (convert_html_to_pdf_with_chrome envTargetsFail).closeTabAttempted = false ∧
    (convert_html_to_pdf_with_chrome envTargetsFail).killAttempted = false ∧
    (convert_html_to_pdf_with_chrome envChromeOk).closeTabAttempted = true ∧
    (convert_html_to_pdf_with_chrome envChromeOk).killAttempted = true :=
  ⟨rfl, rfl, rfl, rfl, rfl, rfl⟩

/-- C6 (counterexample): two conditions the claim assigns to distinct kinds —
exhausting the spawn candidates (`ProcessUnavailable` in the spec) and finding
no page-type target (`RemoteProtocolFailure` in the spec) — yield errors of
one and the same code kind, `ChromeError`, and that kind is not among the five
kind names the claim enumerates: the code's closed set has four kinds, not
five. -/
theorem conversionError_kinds_counterexample :
    (convert_html_to_pdf_with_chrome envAllFail).result = .error (.ChromeError
      "Could not start Chrome/Chromium. Please ensure Chrome or Chromium is installed.") ∧
    find_page_target [] = .error (.ChromeError "No page target found") ∧
    (ConversionError.ChromeError
      "Could not start Chrome/Chromium. Please ensure Chrome or Chromium is installed.").kindName
      = (ConversionError.ChromeError "No page target found").kindName ∧
    (ConversionError.ChromeError "No page target found").kindName ∉
      ["IoFailure", "ProcessUnavailable", "RemoteProtocolFailure", "NetworkFailure",
       "ConversionFailure"] :=
  ⟨rfl, rfl, rfl, by decide⟩

/-- C6 (amended): every error of a core conversion operation is one of the
closed set of four kinds `IoError`, `PdfConversionFailed`, `ChromeError`,
`NetworkError` — where `ChromeError` covers both the process-unavailable and
the remote-protocol conditions — and each renders a human-readable diagnostic
string through its `Display` implementation. -/
theorem conversionError_four_kinds (e : ConversionError) :
    (e.kindName = "IoError" ∨ e.kindName = "PdfConversionFailed" ∨
      e.kindName = "ChromeError" ∨ e.kindName = "NetworkError") ∧
    ∃ m, (e = .IoError m ∧ e.display = "I/O error: " ++ m) ∨
      (e = .PdfConversionFailed m ∧ e.display = "PDF conversion failed: " ++ m) ∨
      (e = .ChromeError m ∧ e.display = "Chrome error: " ++ m) ∨
      (e = .NetworkError m ∧ e.display = "Network error: " ++ m) := by
  cases e with
  | IoError m => exact ⟨Or.inl rfl, m, Or.inl ⟨rfl, rfl⟩⟩
  | PdfConversionFailed m => exact ⟨Or.inr (Or.inl rfl), m, Or.inr (Or.inl ⟨rfl, rfl⟩)⟩
  | ChromeError m =>
    exact ⟨Or.inr (Or.inr (Or.inl rfl)), m, Or.inr (Or.inr (Or.inl ⟨rfl, rfl⟩))⟩
  | NetworkError m =>
    exact ⟨Or.inr (Or.inr (Or.inr rfl)), m, Or.inr (Or.inr (Or.inr ⟨rfl, rfl⟩))⟩

/-- C4: in a run that reaches the print step, the request payload is exactly
the fixed option set (A4 portrait in inches, background graphics on, CSS page
size preferred, 0.4-inch margins); a non-success print status or an absent
`data` field yields a `ChromeError` (the code's realization of the spec's
`RemoteProtocolFailure` kind), a base64 decode failure yields
`PdfConversionFailed` (the spec's `ConversionFailure` kind), and on success
exactly the decoded bytes are written to the destination PDF path. -/
theorem chrome_print_contract (env : ChromeEnv) (t : Target) (w tabId : String)
    (hspawn : env.spawnOk "chrome" chromeArgs = true)
    (htargets : env.targetsResult = .ok [t])
    (hty : t.ty = "page")
    (hws : t.webSocketDebuggerUrl = some w)
    (htab : env.newTabResult = .ok (some tabId))
    (hnav : env.navigateResult = .ok true) :
    chromePrintPayload = { landscape := false, displayHeaderFooter := false,
                           printBackground := true, preferCSSPageSize := true,
                           paperWidth := 827 / 100, paperHeight := 1169 / 100,
                           marginTop := 4 / 10, marginBottom := 4 / 10,
                           marginLeft := 4 / 10, marginRight := 4 / 10 } ∧
    (convert_html_to_pdf_with_chrome env).printPayload = some chromePrintPayload ∧
    (env.printSendResult = .ok false →
      (convert_html_to_pdf_with_chrome env).result =
        .error (.ChromeError "Failed to generate PDF")) ∧
    (env.printSendResult = .ok true → env.printJsonResult = .ok none →
      (convert_html_to_pdf_with_chrome env).result =
        .error (.ChromeError "No PDF data received")) ∧
    (∀ d e2, env.printSendResult = .ok true → env.printJsonResult = .ok (some d) →
      env.decodeBase64 d = .error e2 →
      (convert_html_to_pdf_with_chrome env).result =
        .error (.PdfConversionFailed ("Failed to decode PDF data: " ++ e2))) ∧
    (∀ d bytes, env.printSendResult = .ok true → env.printJsonResult = .ok (some d) →
      env.decodeBase64 d = .ok bytes → env.writeResult = .ok () →
      (convert_html_to_pdf_with_chrome env).writtenPdf = some bytes ∧
      (convert_html_to_pdf_with_chrome env).result = .ok ()) := by
  refine ⟨rfl, ?_, ?_, ?_, ?_, ?_⟩
  · rcases hps : env.printSendResult with e | b
    · simp [convert_html_to_pdf_with_chrome, trySpawn, chromeCandidates, find_page_target,
        hspawn, htargets, hty, hws, htab, hnav, hps, chromeEarlyErr]
    · cases b
      · simp [convert_html_to_pdf_with_chrome, trySpawn, chromeCandidates, find_page_target,
          hspawn, htargets, hty, hws, htab, hnav, hps, chromeEarlyErr]
      · rcases hpj : env.printJsonResult with e | dOpt
        · simp [convert_html_to_pdf_with_chrome, trySpawn, chromeCandidates, find_page_target,
            hspawn, htargets, hty, hws, htab, hnav, hps, hpj, chromeEarlyErr]
        · cases dOpt with
          | none =>
            simp [convert_html_to_pdf_with_chrome, trySpawn, chromeCandidates,
              find_page_target, hspawn, htargets, hty, hws, htab, hnav, hps, hpj,
              chromeEarlyErr]
          | some d =>
            rcases hdec : env.decodeBase64 d with e | bs
            · simp [convert_html_to_pdf_with_chrome, trySpawn, chromeCandidates,
                find_page_target, hspawn, htargets, hty, hws, htab, hnav, hps, hpj, hdec,
                chromeEarlyErr]
            · rcases hw : env.writeResult with e | u
              · simp [convert_html_to_pdf_with_chrome, trySpawn, chromeCandidates,
                  find_page_target, hspawn, htargets, hty, hws, htab, hnav, hps, hpj, hdec,
                  hw, chromeEarlyErr]
              · simp [convert_html_to_pdf_with_chrome, trySpawn, chromeCandidates,
                  find_page_target, hspawn, htargets, hty, hws, htab, hnav, hps, hpj, hdec,
                  hw]
  · intro hps
    simp [convert_html_to_pdf_with_chrome, trySpawn, chromeCandidates, find_page_target,
      hspawn, htargets, hty, hws, htab, hnav, hps, chromeEarlyErr]
  · intro hps hpj
    simp [convert_html_to_pdf_with_chrome, trySpawn, chromeCandidates, find_page_target,
      hspawn, htargets, hty, hws, htab, hnav, hps, hpj, chromeEarlyErr]
  · intro d e2 hps hpj hdec
    simp [convert_html_to_pdf_with_chrome, trySpawn, chromeCandidates, find_page_target,
      hspawn, htargets, hty, hws, htab, hnav, hps, hpj, hdec, chromeEarlyErr]
  · intro d bytes hps hpj hdec hw
    constructor <;>
      simp [convert_html_to_pdf_with_chrome, trySpawn, chromeCandidates, find_page_target,
        hspawn, htargets, hty, hws, htab, hnav, hps, hpj, hdec, hw]

/-- Witness for `chrome_print_contract`: in the all-success environment the
payload is the fixed one, the decoded bytes are written, and the run
succeeds. -/
theorem chrome_print_contract_witness :
    (convert_html_to_pdf_with_chrome envChromeOk).writtenPdf = some [37, 80, 68, 70, 45] ∧
    (convert_html_to_pdf_with_chrome envChromeOk).result = .ok () ∧
    (convert_html_to_pdf_with_chrome envChromeOk).printPayload = some chromePrintPayload := by
  have h := chrome_print_contract envChromeOk
    { ty := "page", webSocketDebuggerUrl := some "ws://localhost:9222/p1" }
    "ws://localhost:9222/p1" "tab-1" rfl rfl rfl rfl rfl rfl
  have h6 := h.2.2.2.2.2 "JVBERi0=" [37, 80, 68, 70, 45] rfl rfl (by rfl) rfl
  exact ⟨h6.1, h6.2, h.2.1⟩

/-- C7: `convert_markdown_to_pdf` attempts deletion of the temporary HTML file
on every exit path on which the file was created (explicitly on the main path,
via the `TempPath` drop glue on early returns), a deletion failure never
changes the returned result, and on the main path the returned result is
exactly the one produced by the Chrome conversion step. -/
theorem convert_markdown_to_pdf_cleanup (env : PdfEnv) (markdown : String) :
    ((convert_markdown_to_pdf env markdown).tempCreated = true →
      (convert_markdown_to_pdf env markdown).deleteAttempted = true) ∧
    (∀ b, (convert_markdown_to_pdf { env with removeFileOk := b } markdown).result =
      (convert_markdown_to_pdf env markdown).result) ∧
    (env.tempFileResult = .ok () → env.writeHtmlResult = .ok () →
      env.runtimeResult = .ok () →
      (convert_markdown_to_pdf env markdown).result =
        (convert_html_to_pdf_with_chrome env.chromeEnv).result) := by
  refine ⟨?_, fun b => rfl, ?_⟩
  · rcases ht : env.tempFileResult with e | u
    · simp [convert_markdown_to_pdf, convert_markdown_to_html, ht]
    · rcases hw : env.writeHtmlResult with e | u2
      · simp [convert_markdown_to_pdf, convert_markdown_to_html, ht, hw]
      · rcases hr : env.runtimeResult with e | u3
        · simp [convert_markdown_to_pdf, convert_markdown_to_html, ht, hw, hr]
        · simp [convert_markdown_to_pdf, convert_markdown_to_html, ht, hw, hr]
  · intro ht hw hr
    simp [convert_markdown_to_pdf, convert_markdown_to_html, ht, hw, hr]

/-- Environment for a `convert_markdown_to_pdf` run in which every local step
succeeds and the inner Chrome run is `envChromeOk`; `fs::remove_file` fails. -/
def envPdfOk : PdfEnv :=
  { markdown_to_html_ext := fun _ _ => "<h1>t</h1>"
    tempFileResult := .ok ()
    writeHtmlResult := .ok ()
    runtimeResult := .ok ()
    chromeEnv := envChromeOk
    removeFileOk := false }

/-- Witness for `convert_markdown_to_pdf_cleanup` at a concrete environment. -/
theorem convert_markdown_to_pdf_cleanup_witness :
    (convert_markdown_to_pdf envPdfOk "# t").deleteAttempted = true ∧
    (convert_markdown_to_pdf envPdfOk "# t").result =
      (convert_html_to_pdf_with_chrome envPdfOk.chromeEnv).result := by
  have h := convert_markdown_to_pdf_cleanup envPdfOk "# t"
  exact ⟨h.1 rfl, h.2.2 rfl rfl rfl⟩

/-- Splitting a list at the point `fileNameOf` splits it: the reversed
drop-while part is the directory prefix, the reversed take-while part the file
name. -/
lemma path_decomp (q : Char → Bool) (l : List Char) :
    l = (l.reverse.dropWhile q).reverse ++ (l.reverse.takeWhile q).reverse := by
  conv_lhs =>
    rw [← List.reverse_reverse l,
      ← List.takeWhile_append_dropWhile (p := q) (l := l.reverse)]
  rw [List.reverse_append]

/-- Appending `.ext` (with no `/` in `ext`) to a path extends its file name. -/
lemma fileNameOf_append_ext (B E : List Char) (hslash : '/' ∉ E) :
    fileNameOf (B ++ '.' :: E) = fileNameOf B ++ '.' :: E := by
  unfold fileNameOf
  have h1 : (B ++ '.' :: E).reverse = E.reverse ++ '.' :: B.reverse := by
    simp
  rw [h1]
  have hq : ∀ c ∈ E.reverse, (c != '/') = true := by
    intro c hc
    simp only [List.mem_reverse] at hc
    simp only [bne_iff_ne, ne_eq]
    rintro rfl
    exact hslash hc
  rw [List.takeWhile_append_of_pos hq]
  simp [List.takeWhile_cons]

/-- Removing the last dot segment of `fname ++ "." ++ ext` (with no `.` in
`ext`) recovers `fname`. -/
lemma dropLastDotSegment_append (F E : List Char) (hdot : '.' ∉ E) :
    dropLastDotSegment (F ++ '.' :: E) = F := by
  unfold dropLastDotSegment
  have h1 : (F ++ '.' :: E).reverse = E.reverse ++ '.' :: F.reverse := by
    simp
  rw [h1]
  have hq : ∀ c ∈ E.reverse, (c != '.') = true := by
    intro c hc
    simp only [List.mem_reverse] at hc
    simp only [bne_iff_ne, ne_eq]
    rintro rfl
    exact hdot hc
  rw [List.dropWhile_append_of_pos hq]
  simp [List.dropWhile_cons]

/-- Rust `set_extension` semantics on a path `base ++ "." ++ ext` whose final
component has the (dot-free, slash-free) extension `ext` and a nonempty stem:
the extension is replaced and the rest of the path is unchanged. -/
lemma set_extension_replaces (base ext newExt : String)
    (hdot : '.' ∉ ext.data) (hslash : '/' ∉ ext.data)
    (hbase : fileNameOf base.data ≠ []) :
    set_extension (base ++ "." ++ ext) newExt = base ++ "." ++ newExt := by
  obtain ⟨a, fB, hfB⟩ := List.exists_cons_of_ne_nil hbase
  apply String.ext
  have hdata : (base ++ "." ++ ext).data = base.data ++ '.' :: ext.data := by
    simp
  have hdata2 : (base ++ "." ++ newExt).data = base.data ++ '.' :: newExt.data := by
    simp
  have hfname : fileNameOf (base ++ "." ++ ext).data = (a :: fB) ++ '.' :: ext.data := by
    rw [hdata, fileNameOf_append_ext _ _ hslash, hfB]
  have hBdecomp :
      base.data = (base.data.reverse.dropWhile (fun c => c != '/')).reverse ++ (a :: fB) := by
    have h0 := path_decomp (fun c => c != '/') base.data
    rw [show (base.data.reverse.takeWhile (fun c => c != '/')).reverse
          = fileNameOf base.data from rfl, hfB] at h0
    exact h0
  simp only [set_extension, hfname]
  rw [hdata, hdata2]
  have hany : (((a :: fB) ++ '.' :: ext.data).drop 1).any (fun c => c == '.') = true := by
    simp
  rw [hany]
  simp only [List.cons_append, List.isEmpty_cons, Bool.false_eq_true, if_false, if_true]
  rw [← List.cons_append, dropLastDotSegment_append _ _ hdot]
  set dB := (base.data.reverse.dropWhile (fun c => c != '/')).reverse
  rw [hBdecomp]
  simp only [List.cons_append, List.append_assoc]
  have htake : (dB ++ (a :: (fB ++ '.' :: ext.data))).take
      ((dB ++ (a :: (fB ++ '.' :: ext.data))).length - (a :: (fB ++ '.' :: ext.data)).length)
      = dB := List.take_left' (by simp)
  rw [htake]

/-- C9: when no output file is supplied, `Config::new` derives the output path
from the input path by replacing its extension with `html` (HTML format) or
`pdf` (PDF format), leaving the rest of the input path unchanged; when an
output file is supplied it is used exactly as given.  The input path is
written `base ++ "." ++ ext` with `ext` its extension (no `.` or `/`) and a
nonempty file-name stem in `base`; the two booleans record that the input
exists and is a regular file. -/
theorem config_new_output_path (input out base ext : String) (fmt : OutputFormat)
    (hin : input = base ++ "." ++ ext)
    (hdot : '.' ∉ ext.data) (hslash : '/' ∉ ext.data)
    (hbase : fileNameOf base.data ≠ []) :
    Config.new true true input (some out) fmt =
      .ok { input_file := input, output_file := out, output_format := fmt,
            css_url := defaultCssUrl, css_class := "markdown-body" } ∧
    Config.new true true input none OutputFormat.Html =
      .ok { input_file := input, output_file := base ++ ".html",
            output_format := OutputFormat.Html,
            css_url := defaultCssUrl, css_class := "markdown-body" } ∧
    Config.new true true input none OutputFormat.Pdf =
      .ok { input_file := input, output_file := base ++ ".pdf",
            output_format := OutputFormat.Pdf,
            css_url := defaultCssUrl, css_class := "markdown-body" } := by
  subst hin
  refine ⟨rfl, ?_, ?_⟩
  · have h := set_extension_replaces base ext "html" hdot hslash hbase
    simp only [Config.new, Bool.not_true, Bool.false_eq_true, if_false, h]
    have : base ++ "." ++ "html" = base ++ ".html" := by
      apply String.ext
      simp
    rw [this]
  · have h := set_extension_replaces base ext "pdf" hdot hslash hbase
    simp only [Config.new, Bool.not_true, Bool.false_eq_true, if_false, h]
    have : base ++ "." ++ "pdf" = base ++ ".pdf" := by
      apply String.ext
      simp
    rw [this]

/-- Witness for `config_new_output_path` at a concrete path. -/
theorem config_new_output_path_witness :
    Config.new true true "docs/manual.md" (some "out.pdf") OutputFormat.Pdf =
      .ok { input_file := "docs/manual.md", output_file := "out.pdf",
            output_format := OutputFormat.Pdf,
            css_url := defaultCssUrl, css_class := "markdown-body" } ∧
    Config.new true true "docs/manual.md" none OutputFormat.Html =
      .ok { input_file := "docs/manual.md", output_file := "docs/manual" ++ ".html",
            output_format := OutputFormat.Html,
            css_url := defaultCssUrl, css_class := "markdown-body" } ∧
    Config.new true true "docs/manual.md" none OutputFormat.Pdf =
      .ok { input_file := "docs/manual.md", output_file := "docs/manual" ++ ".pdf",
            output_format := OutputFormat.Pdf,
            css_url := defaultCssUrl, css_class := "markdown-body" } :=
  config_new_output_path "docs/manual.md" "out.pdf" "docs/manual" "md" OutputFormat.Pdf
    rfl (by decide) (by decide) (by decide)

/-- The heading font-size mapping is positive. -/
lemma headingFontSize_pos (level : Nat) : 0 < headingFontSize level := by
  unfold headingFontSize
  split_ifs <;> norm_num

/-- A document consisting only of heading nodes. -/
def headingsOf (hs : List (Nat × List TreeNode)) : List TreeNode :=
  hs.map (fun h => TreeNode.heading h.1 h.2)

/-- Laying out a heading-only sequence from any cursor `y`: the emitted sizes
are the heading sizes in order, every command sits strictly above the final
cursor and strictly below `y`, and the `y`-coordinates strictly decrease. -/
lemma layout_headings_aux (hs : List (Nat × List TreeNode)) : ∀ y : Rat,
    ((layoutNodes y (headingsOf hs)).2.map DrawCommand.size
        = hs.map (fun h => headingFontSize h.1)) ∧
    (∀ c ∈ (layoutNodes y (headingsOf hs)).2, c.y < y) ∧
    List.Chain' (fun a b => b.y < a.y) (layoutNodes y (headingsOf hs)).2 := by
  induction hs with
  | nil =>
    intro y
    refine ⟨rfl, ?_, ?_⟩ <;> simp [headingsOf, layoutNodes]
  | cons h hs ih =>
    intro y
    obtain ⟨l, cs⟩ := h
    have hpos := headingFontSize_pos l
    have hmul : (0 : Rat) < headingFontSize l * (7 / 10) :=
      mul_pos hpos (by norm_num)
    have hstep : layoutNodes y (headingsOf ((l, cs) :: hs))
        = ((layoutNodes (y - headingFontSize l * (7 / 10) - 4) (headingsOf hs)).1,
           { text := collectTextList cs, size := headingFontSize l, x := 20,
             y := y - headingFontSize l * (7 / 10) }
             :: (layoutNodes (y - headingFontSize l * (7 / 10) - 4) (headingsOf hs)).2) := by
      simp [headingsOf, layoutNodes, layoutNode]
    obtain ⟨ih1, ih2, ih3⟩ := ih (y - headingFontSize l * (7 / 10) - 4)
    refine ⟨?_, ?_, ?_⟩
    · rw [hstep]
      simp [ih1]
    · intro c hc
      rw [hstep] at hc
      rcases List.mem_cons.mp hc with rfl | hc2
      · simp only []
        linarith
      · have := ih2 c hc2
        linarith
    · rw [hstep]
      rw [List.chain'_cons']
      refine ⟨?_, ih3⟩
      intro b hb
      have hbmem := List.mem_of_mem_head? hb
      have := ih2 b hbmem
      simp only []
      linarith

/-- C2 (modelled from the spec, no layout code exists under `src/`): on a
document tree containing only heading nodes of levels 1..6, the layout engine
emits one command per heading whose font size follows the mapping
`1 ↦ 24, 2 ↦ 20, 3 ↦ 16, default ↦ 14` — hence non-increasing as the level
increases — and the `y`-coordinates of successive commands strictly
decrease. -/
theorem layout_headings (hs : List (Nat × List TreeNode))
    (_h16 : ∀ h ∈ hs, 1 ≤ h.1 ∧ h.1 ≤ 6) :
    (layout (TreeNode.other "document" (headingsOf hs))).map DrawCommand.size
        = hs.map (fun h => headingFontSize h.1) ∧
    headingFontSize 1 = 24 ∧ headingFontSize 2 = 20 ∧ headingFontSize 3 = 16 ∧
    (∀ l, l ≠ 1 → l ≠ 2 → l ≠ 3 → headingFontSize l = 14) ∧
    (∀ lv1 lv2, 1 ≤ lv1 → lv1 ≤ lv2 → headingFontSize lv2 ≤ headingFontSize lv1) ∧
    List.Chain' (fun a b => b.y < a.y)
      (layout (TreeNode.other "document" (headingsOf hs))) := by
  have haux := layout_headings_aux hs layoutStartY
  have hl : layout (TreeNode.other "document" (headingsOf hs))
      = (layoutNodes layoutStartY (headingsOf hs)).2 := by
    simp [layout, layoutNode]
  refine ⟨by rw [hl]; exact haux.1, rfl, rfl, rfl, ?_, ?_, by rw [hl]; exact haux.2.2⟩
  · intro l h1 h2 h3
    simp [headingFontSize, h1, h2, h3]
  · intro lv1 lv2 hge hle
    unfold headingFontSize
    split_ifs <;> first | (exfalso; omega) | norm_num

/-- Witness for `layout_headings` at a concrete heading-only document. -/
theorem layout_headings_witness :
    (layout (TreeNode.other "document" (headingsOf
        [(1, [TreeNode.text "A"]), (2, [TreeNode.text "B"]),
         (6, [TreeNode.text "C"])]))).map DrawCommand.size = [24, 20, 14] ∧
    List.Chain' (fun a b => b.y < a.y)
      (layout (TreeNode.other "document" (headingsOf
        [(1, [TreeNode.text "A"]), (2, [TreeNode.text "B"]),
         (6, [TreeNode.text "C"])]))) := by
  have h := layout_headings
    [(1, [TreeNode.text "A"]), (2, [TreeNode.text "B"]), (6, [TreeNode.text "C"])]
    (by decide)
  exact ⟨h.1.trans (by decide), h.2.2.2.2.2.2⟩
